import Mathlib

/-!
Verification of the ollamaverse model-routing proxies.

The repository contains two Flask routers:
* `src/ApplicationCode/python/multi_ollama_api.py` — the `/ask` handler
  (non-streaming `generate` calls, health check, model list), modelled in
  namespace `AppCode`;
* `src/python/multi_ollama_api.py` — the `/ollama/chat` handler
  (streaming newline-delimited JSON reassembly), modelled in namespace
  `Proxy`.

JSON values are modelled by an inductive `Json`; Python `dict.get` with a
default (which raises `AttributeError` on a non-dict receiver, modelled by
`none`) by `pyGet`.  Each handler is a pure function from the parsed
request body and an explicit model of the outside world (backend
reachability, the outcome of the upstream call, elapsed time) to the HTTP
response it produces together with the list of network calls it performed.
-/

/-- JSON values.  Numbers are modelled as rationals. -/
inductive Json where
  | null : Json
  | bool (b : Bool) : Json
  | num (q : ℚ) : Json
  | str (s : String) : Json
  | arr (elems : List Json) : Json
  | obj (fields : List (String × Json)) : Json
  deriving Repr

/-- First-match lookup in a JSON-object field list (Python dicts have
distinct keys, so first-match agrees with dict lookup). -/
def jLookup : List (String × Json) → String → Option Json
  | [], _ => none
  | (k, v) :: rest, key => if k = key then some v else jLookup rest key

/-- Python `receiver.get(key, default)`: returns `none` when the receiver
is not a dict (the Python code would raise `AttributeError` there), the
field value when the key is present, and the default otherwise. -/
def pyGet (j : Json) (key : String) (dflt : Json) : Option Json :=
  match j with
  | .obj fields => some ((jLookup fields key).getD dflt)
  | _ => none

/-- Field access on a JSON object, no default: used to inspect response
bodies in the specifications. -/
def Json.getField (j : Json) (key : String) : Option Json :=
  match j with
  | .obj fields => jLookup fields key
  | _ => none

/-- Python truthiness of a (possibly absent) string: `if not prompt`
holds exactly when the field is absent (`None`) or the empty string. -/
def pyFalsy : Option String → Bool
  | none => true
  | some s => s = ""

/-- Python `str(...)` rendering of a possibly-`None` string value, as it
appears inside f-strings (`None` prints as `"None"`). -/
def pyStrOpt : Option String → String
  | none => "None"
  | some s => s

/-- The parsed body of a chat/generate request: the three fields both
handlers read (`token`, `model`, `prompt`), each possibly absent. -/
structure ChatReq where
  token : Option Json
  model : Option String
  prompt : Option String

/-- An HTTP response produced by a handler. -/
structure HttpResponse where
  status : Nat
  body : Json
  deriving Repr

/-- A network call the handler performs, in order: a reachability probe
(`GET /api/tags`) or a forwarded generation request (`POST`). -/
inductive NetCall where
  | probe (url : String)
  | post (url : String)
  deriving Repr, DecidableEq

/-- First-match lookup in a string-valued configuration table. -/
def sLookup : List (String × String) → String → Option String
  | [], _ => none
  | (k, v) :: rest, key => if k = key then some v else sLookup rest key

/-- Python `round(x, 2)`: elapsed seconds rounded to two decimal places
(time modelled as a rational). -/
def round2 (q : ℚ) : ℚ := (round (q * 100) : ℤ) / 100

/-- Python `str.strip()`: remove leading and trailing whitespace. -/
def pyStrip (s : String) : String :=
  ⟨((s.data.dropWhile Char.isWhitespace).reverse.dropWhile
      Char.isWhitespace).reverse⟩

namespace AppCode

/-- `AVAILABLE_MODELS` of `src/ApplicationCode/python/multi_ollama_api.py`:
logical key ↦ real Ollama model identifier. -/
def AVAILABLE_MODELS : List (String × String) :=
  [("smollm2", "smollm2:135m-instruct-q8_0"),
   ("tinyllama", "tinyllama:latest")]

/-- `OLLAMA_SERVICES`: logical key ↦ backend base URL (environment
defaults). -/
def OLLAMA_SERVICES : List (String × String) :=
  [("smollm2", "http://ollama-smollm2:11434"),
   ("tinyllama", "http://ollama-tinyllama:11434")]

/-- `OLLAMA_BASE_URL` environment default. -/
def OLLAMA_BASE_URL : String := "http://localhost:11434"

/-- `get_ollama_url`: `OLLAMA_SERVICES.get(model_key, OLLAMA_BASE_URL)`. -/
def get_ollama_url (model_key : String) : String :=
  (sLookup OLLAMA_SERVICES model_key).getD OLLAMA_BASE_URL

/-- Outcome of the upstream `requests.post(..., timeout=120)` call made by
the `/ask` handler: a timeout (`requests.exceptions.Timeout`), another
transport/HTTP failure (`requests.exceptions.RequestException`, which
`raise_for_status` errors also are), or a parsed JSON body. -/
inductive AskUpstream where
  | timeout (msg : String)
  | requestError (msg : String)
  | ok (result : Json)

/-- The outside world as seen by one `/ask` request: per-URL reachability
(the result of `check_ollama_connection`), the outcome of the upstream
call, and the elapsed wall-clock seconds. -/
structure AskWorld where
  reachable : String → Bool
  upstream : AskUpstream
  elapsed : ℚ

/-- The `/ask` handler `chat_with_model` of
`src/ApplicationCode/python/multi_ollama_api.py`, returning the HTTP
response and the ordered list of network calls performed. -/
def chat_with_model (req : ChatReq) (w : AskWorld) :
    HttpResponse × List NetCall :=
  let model_key := req.model.getD "smollm2"
  if pyFalsy req.prompt then
    ({ status := 400, body := .obj [("error", .str "Missing prompt")] }, [])
  else
    match sLookup AVAILABLE_MODELS model_key with
    | none =>
        ({ status := 400,
           body := .obj
             [("error", .str ("Model \x27" ++ model_key ++ "\x27 not available")),
              ("available_models",
               .arr (AVAILABLE_MODELS.map (fun p => .str p.1)))] }, [])
    | some ollama_model =>
        let ollama_url := get_ollama_url model_key
        if ! w.reachable ollama_url then
          ({ status := 503,
             body := .obj
               [("error",
                 .str ("Ollama service for \x27" ++ model_key ++
                       "\x27 is not available")),
                ("ollama_url", .str ollama_url)] },
           [.probe ollama_url])
        else
          let api_endpoint := ollama_url ++ "/api/generate"
          let calls := [NetCall.probe ollama_url, NetCall.post api_endpoint]
          match w.upstream with
          | .timeout _ =>
              ({ status := 504,
                 body := .obj
                   [("error",
                     .str "Request timeout - model took too long to respond")] },
               calls)
          | .requestError msg =>
              ({ status := 500,
                 body := .obj
                   [("error",
                     .str ("Failed to communicate with Ollama: " ++ msg)),
                    ("ollama_url", .str ollama_url)] },
               calls)
          | .ok result =>
              match pyGet result "response" (.str "") with
              | some (.str s) =>
                  let generated_text := pyStrip s
                  if generated_text = "" then
                    ({ status := 500,
                       body := .obj
                         [("error", .str "Empty response from model")] },
                     calls)
                  else
                    ({ status := 200,
                       body := .obj
                         [("response", .str generated_text),
                          ("model", .str model_key),
                          ("ollama_model", .str ollama_model),
                          ("processing_time", .num (round2 w.elapsed))] },
                     calls)
              | _ =>
                  ({ status := 500,
                     body := .obj [("error", .str "Internal server error")] },
                   calls)

/-- The `/health` handler `health_check`: probes every configured backend,
collects per-service status, and reports `"healthy"` when at least one
service is connected, `"degraded"` otherwise.  `reachable` gives each
result of each probe and `ollamaModels` the model list a reachable backend
reports. -/
def health_check (reachable : String → Bool)
    (ollamaModels : String → List String) : HttpResponse :=
  let services_status : List (String × String × Bool × List String) :=
    OLLAMA_SERVICES.map (fun p =>
      let is_connected := reachable p.2
      (p.1, p.2, is_connected,
       if is_connected then ollamaModels p.2 else []))
  let overall_healthy := services_status.any (fun s => s.2.2.1)
  { status := 200,
    body := .obj
      [("status", .str (if overall_healthy then "healthy" else "degraded")),
       ("services",
        .obj (services_status.map (fun s =>
          (s.1, Json.obj
            [("url", .str s.2.1),
             ("connected", .bool s.2.2.1),
             ("models", .arr (s.2.2.2.map Json.str))])))),
       ("configured_models",
        .arr (AVAILABLE_MODELS.map (fun p => .str p.1)))] }

end AppCode

namespace Proxy

/-- `AVAILABLE_MODELS` of `src/python/multi_ollama_api.py`: a list of
logical keys. -/
def AVAILABLE_MODELS : List String := ["tinyllama", "smollm2"]

/-- `MODEL_ENDPOINTS`: logical key ↦ Kubernetes service URL. -/
def MODEL_ENDPOINTS : List (String × String) :=
  [("tinyllama", "http://ollama-tinyllama.aiops.svc.cluster.local:11434"),
   ("smollm2", "http://ollama-smollm2.aiops.svc.cluster.local:11434")]

/-- One line of the streamed backend body, after `iter_lines` and UTF-8
decoding: an empty (falsy) line, a non-empty line on which `json.loads`
(or the decoding itself) raises, or a line that parses to a JSON value. -/
inductive StreamLine where
  | empty : StreamLine
  | malformed : StreamLine
  | parsed (j : Json) : StreamLine

/-- The per-variant fragment extraction performed inside the streaming
try block of the loop on a parsed line.  `none` models an exception (the
line is then skipped by the `except ... continue`): the parsed value not
being a dict, `message` not being a dict, or the extracted value not
being a string (so that `final_message += msg` would raise). -/
def extractFragment (model : String) (parsed : Json) : Option String :=
  if model = "smollm2" then
    match pyGet parsed "response" (.str "") with
    | some (.str s) => some s
    | _ => none
  else
    match pyGet parsed "message" (.obj []) with
    | some msgVal =>
        match pyGet msgVal "content" (.str "") with
        | some (.str s) => some s
        | _ => none
    | none => none

/-- The fragment a stream line contributes: empty and malformed lines
contribute nothing, parsed lines contribute their extracted fragment. -/
def lineFragment (model : String) : StreamLine → Option String
  | .parsed j => extractFragment model j
  | _ => none

/-- The streaming reassembly loop: starting from `final_message = ""`,
append each fragment of each line, skipping empty lines and lines whose
processing raises. -/
def processLines (model : String) (lines : List StreamLine) : String :=
  lines.foldl (fun acc l =>
    match l with
    | .empty => acc
    | .malformed => acc
    | .parsed j =>
        match extractFragment model j with
        | some msg => acc ++ msg
        | none => acc) ""

/-- Outcome of the upstream `requests.post(..., stream=True, timeout=120)`
call: a timeout (`requests.exceptions.Timeout`, a subclass of
`RequestException`), another transport/HTTP failure, or a streamed body
delivered as a sequence of lines. -/
inductive ChatUpstream where
  | timeout (msg : String)
  | requestError (msg : String)
  | ok (lines : List StreamLine)

/-- The `/ollama/chat` handler `chat_with_model` of
`src/python/multi_ollama_api.py`.  Note that the registry-membership
check precedes the prompt check, that the only upstream-failure handler
is `except requests.exceptions.RequestException` (so timeouts also map to
500), and that the success body carries only the `response` field. -/
def chat_with_model (req : ChatReq) (upstream : ChatUpstream) :
    HttpResponse × List NetCall :=
  match req.model with
  | none =>
      ({ status := 400,
         body := .obj
           [("error",
             .str ("Model \x27" ++ pyStrOpt none ++ "\x27 not available"))] }, [])
  | some m =>
      if ! AVAILABLE_MODELS.contains m then
        ({ status := 400,
           body := .obj
             [("error", .str ("Model \x27" ++ m ++ "\x27 not available"))] }, [])
      else if pyFalsy req.prompt then
        ({ status := 400, body := .obj [("error", .str "Missing prompt")] },
         [])
      else
        let model_url := (sLookup MODEL_ENDPOINTS m).getD ""
        let api_endpoint :=
          if m = "smollm2" then model_url ++ "/api/generate"
          else model_url ++ "/api/chat"
        match upstream with
        | .timeout msg =>
            ({ status := 500, body := .obj [("error", .str msg)] },
             [.post api_endpoint])
        | .requestError msg =>
            ({ status := 500, body := .obj [("error", .str msg)] },
             [.post api_endpoint])
        | .ok lines =>
            ({ status := 200,
               body := .obj [("response", .str (processLines m lines))] },
             [.post api_endpoint])

/-- `String.join` distributes over cons. -/
theorem join_cons (s : String) (rest : List String) :
    String.join (s :: rest) = s ++ String.join rest := by
  apply String.ext
  simp [String.join_eq]

/-- The reassembly loop, started from any accumulator, appends the
in-order concatenation of the fragments of the lines. -/
theorem foldl_lines_eq (model : String) (lines : List StreamLine) :
    ∀ acc : String,
      List.foldl (fun acc l =>
        match l with
        | .empty => acc
        | .malformed => acc
        | .parsed j =>
            match extractFragment model j with
            | some msg => acc ++ msg
            | none => acc) acc lines =
      acc ++ String.join (lines.filterMap (lineFragment model)) := by
  induction lines with
  | nil => intro acc; simp [String.join]
  | cons l ls ih =>
      intro acc
      cases l with
      | empty =>
          simpa [lineFragment, List.filterMap_cons] using ih acc
      | malformed =>
          simpa [lineFragment, List.filterMap_cons] using ih acc
      | parsed j =>
          cases hf : extractFragment model j with
          | none =>
              simp [lineFragment, List.filterMap_cons, hf, ih acc]
          | some msg =>
              simp [lineFragment, List.filterMap_cons, hf, ih (acc ++ msg),
                    join_cons, String.append_assoc]

/-- `processLines` computes the in-order concatenation of the fragments
of the lines, skipping malformed and empty lines. -/
theorem processLines_eq_join (model : String) (lines : List StreamLine) :
    processLines model lines =
      String.join (lines.filterMap (lineFragment model)) := by
  have h := foldl_lines_eq model lines ""
  simp only [String.empty_append] at h
  exact h

end Proxy

/-! ## Concrete fixtures used by witnesses and counterexamples -/

/-- A request naming the smollm2 model with a non-empty prompt. -/
def smollm2Req : ChatReq :=
  { token := none, model := some "smollm2", prompt := some "hi" }

/-- A request with neither a prompt nor a model. -/
def noInputReq : ChatReq :=
  { token := none, model := none, prompt := none }

/-- A request naming an unconfigured model, with a prompt. -/
def badModelReq : ChatReq :=
  { token := none, model := some "gpt4", prompt := some "hi" }

/-- A world in which every backend is reachable and the upstream call
returns the single JSON object with a non-empty response text. -/
def okWorld : AppCode.AskWorld :=
  { reachable := fun _ => true,
    upstream := .ok (.obj [("response", .str "hi there")]),
    elapsed := 0 }

/-- A world in which no backend probe succeeds. -/
def downWorld : AppCode.AskWorld :=
  { reachable := fun _ => false,
    upstream := .requestError "connection refused",
    elapsed := 0 }

/-- Reachability making exactly the smollm2 backend reachable. -/
def oneReachable : String → Bool := fun u => u == "http://ollama-smollm2:11434"

/-- A model-listing function reporting no models. -/
def noModels : String → List String := fun _ => []

/-- A streamed body: two well-formed fragment lines interleaved with a
malformed line and an empty line. -/
def mixedLines : List Proxy.StreamLine :=
  [.parsed (.obj [("response", .str "he")]),
   .malformed,
   .parsed (.obj [("response", .str "llo")]),
   .empty]

/-! ## C1 — streamed reassembly tolerates malformed lines -/

/-- C1: for every streamed backend reply, the `/ollama/chat` handler
returns HTTP 200 with `response` equal to the concatenation, in arrival
order, of the per-variant fragments extracted from the lines that parse;
malformed (and empty) lines contribute nothing and never abort the
request. -/
theorem C1_streaming_reassembly (req : ChatReq) (m : String)
    (lines : List Proxy.StreamLine)
    (hm : req.model = some m)
    (hmem : Proxy.AVAILABLE_MODELS.contains m = true)
    (hp : pyFalsy req.prompt = false) :
    (Proxy.chat_with_model req (.ok lines)).1.status = 200 ∧
    (Proxy.chat_with_model req (.ok lines)).1.body =
      .obj [("response",
        .str (String.join (lines.filterMap (Proxy.lineFragment m))))] := by
  unfold Proxy.chat_with_model
  rw [hm]
  have hmem2 : m ∈ Proxy.AVAILABLE_MODELS := by simpa using hmem
  simp [hmem2, hp, Proxy.processLines_eq_join]

/-- C1 witness: a smollm2-variant stream with fragments "he" and "llo"
interleaved with a malformed line and an empty line yields 200 and the
response text "hello". -/
theorem C1_streaming_reassembly_witness :
    (Proxy.chat_with_model smollm2Req (.ok mixedLines)).1.status = 200 ∧
    (Proxy.chat_with_model smollm2Req (.ok mixedLines)).1.body =
      .obj [("response", .str "hello")] :=
  C1_streaming_reassembly smollm2Req "smollm2" mixedLines rfl rfl rfl

/-! ## C2 — health status with one backend reachable -/

/-- C2 counterexample: with exactly one of the two configured backends
reachable, the `/health` handler reports overall status "healthy", not
"degraded" as the claim states. -/
theorem C2_health_counterexample :
    (AppCode.health_check oneReachable noModels).body.getField "status" =
      some (.str "healthy") ∧ "healthy" ≠ "degraded" :=
  ⟨rfl, by decide⟩

/-- C2 (amended): with exactly one of the two configured backends
reachable, the overall `status` is "healthy"; the code reports
"degraded" only when no backend is reachable. -/
theorem C2_health_one_reachable (reachable : String → Bool)
    (models : String → List String)
    (h : reachable "http://ollama-smollm2:11434" ≠
         reachable "http://ollama-tinyllama:11434") :
    (AppCode.health_check reachable models).body.getField "status" =
      some (.str "healthy") := by
  unfold AppCode.health_check
  cases h1 : reachable "http://ollama-smollm2:11434" <;>
    cases h2 : reachable "http://ollama-tinyllama:11434" <;>
      simp [h1, h2] at h ⊢ <;>
        simp [AppCode.OLLAMA_SERVICES, h1, h2, Json.getField, jLookup]

/-- C2 witness: the amended statement at the concrete reachability
function making only the smollm2 backend reachable. -/
theorem C2_health_one_reachable_witness :
    (AppCode.health_check oneReachable noModels).body.getField "status" =
      some (.str "healthy") :=
  C2_health_one_reachable oneReachable noModels (by decide)

/-! ## C3 — validation order for requests missing the text input -/

/-- C3 counterexample: the `/ollama/chat` handler checks registry
membership before the prompt, so a request missing both the prompt and
the model is answered with the model-not-available error, not with
MissingInput. -/
theorem C3_order_counterexample :
    (Proxy.chat_with_model noInputReq (.ok [])).1 =
      { status := 400,
        body := .obj [("error", .str "Model \x27None\x27 not available")] } ∧
    (Proxy.chat_with_model noInputReq (.ok [])).1.body.getField "error" ≠
      some (.str "Missing prompt") := by
  refine ⟨rfl, ?_⟩
  intro h
  simp [Proxy.chat_with_model, noInputReq, Json.getField, jLookup] at h
  exact absurd h (by decide)

/-- A request with a missing prompt whose model is explicitly the
unconfigured key "gpt4": the input on which the two validation orders
disagree. -/
def noPromptBadModelReq : ChatReq :=
  { token := none, model := some "gpt4", prompt := none }

/-- C3 (amended): the `/ask` handler checks the prompt before the
registry — a request with a missing prompt yields MissingInput (400)
with no upstream call even when its model is explicitly an unconfigured
key (where a registry-first handler would answer ModelNotConfigured);
the `/ollama/chat` handler checks the registry first, so the same
request yields the model-not-available error there, still 400 and still
with no upstream call. -/
theorem C3_validation_order (req : ChatReq) (w : AppCode.AskWorld)
    (u : Proxy.ChatUpstream) (m : String)
    (hp : pyFalsy req.prompt = true)
    (hm : req.model = some m)
    (hA : sLookup AppCode.AVAILABLE_MODELS m = none)
    (hP : Proxy.AVAILABLE_MODELS.contains m = false) :
    AppCode.chat_with_model req w =
      ({ status := 400, body := .obj [("error", .str "Missing prompt")] },
       []) ∧
    Proxy.chat_with_model req u =
      ({ status := 400,
         body := .obj
           [("error", .str ("Model \x27" ++ m ++ "\x27 not available"))] },
       []) := by
  constructor
  · unfold AppCode.chat_with_model
    simp [hp]
  · unfold Proxy.chat_with_model
    rw [hm]
    have hP2 : m ∉ Proxy.AVAILABLE_MODELS := by
      intro hmem
      have := List.elem_iff.mpr hmem
      exact Bool.false_ne_true (hP ▸ this)
    simp [hP2]

/-- C3 witness: the amended statement at the request with no prompt and
the explicitly unconfigured model "gpt4", with an unreachable world and
an empty stream. -/
theorem C3_validation_order_witness :
    AppCode.chat_with_model noPromptBadModelReq downWorld =
      ({ status := 400, body := .obj [("error", .str "Missing prompt")] },
       []) ∧
    Proxy.chat_with_model noPromptBadModelReq (.ok []) =
      ({ status := 400,
         body := .obj [("error", .str "Model \x27gpt4\x27 not available")] },
       []) :=
  C3_validation_order noPromptBadModelReq downWorld (.ok []) "gpt4"
    rfl rfl rfl rfl

/-! ## C4 — unconfigured model is rejected, listing the valid keys -/

/-- C4 counterexample: the `/ollama/chat` handler rejects an unconfigured
model with 400 but its body carries no `available_models` field, so the
response does not list the valid key set. -/
theorem C4_listing_counterexample :
    (Proxy.chat_with_model badModelReq (.ok [])).1.status = 400 ∧
    (Proxy.chat_with_model badModelReq (.ok [])).1.body.getField "error" =
      some (.str "Model \x27gpt4\x27 not available") ∧
    (Proxy.chat_with_model badModelReq (.ok [])).1.body.getField
      "available_models" = none :=
  ⟨rfl, rfl, rfl⟩

/-- C4 (amended): a request naming an unconfigured model is rejected with
400 and no network call by both handlers; the `/ask` handler additionally
lists the full valid key set in `available_models`, while the
`/ollama/chat` handler returns only the error message. -/
theorem C4_model_not_configured (req : ChatReq) (w : AppCode.AskWorld)
    (u : Proxy.ChatUpstream) (m : String)
    (hm : req.model = some m)
    (hA : sLookup AppCode.AVAILABLE_MODELS m = none)
    (hP : Proxy.AVAILABLE_MODELS.contains m = false)
    (hp : pyFalsy req.prompt = false) :
    AppCode.chat_with_model req w =
      ({ status := 400,
         body := .obj
           [("error", .str ("Model \x27" ++ m ++ "\x27 not available")),
            ("available_models",
             .arr [.str "smollm2", .str "tinyllama"])] },
       []) ∧
    Proxy.chat_with_model req u =
      ({ status := 400,
         body := .obj
           [("error", .str ("Model \x27" ++ m ++ "\x27 not available"))] },
       []) := by
  constructor
  · unfold AppCode.chat_with_model
    rw [hm]
    simp only [Option.getD_some]
    simp [hp, hA]
    rfl
  · unfold Proxy.chat_with_model
    rw [hm]
    have hP2 : m ∉ Proxy.AVAILABLE_MODELS := by
      intro hmem
      have := List.elem_iff.mpr hmem
      exact Bool.false_ne_true (hP ▸ this)
    simp [hP2]

/-- C4 witness: the amended statement at the request naming the
unconfigured model "gpt4". -/
theorem C4_model_not_configured_witness :
    AppCode.chat_with_model badModelReq downWorld =
      ({ status := 400,
         body := .obj
           [("error", .str "Model \x27gpt4\x27 not available"),
            ("available_models",
             .arr [.str "smollm2", .str "tinyllama"])] },
       []) ∧
    Proxy.chat_with_model badModelReq (.ok []) =
      ({ status := 400,
         body := .obj [("error", .str "Model \x27gpt4\x27 not available")] },
       []) :=
  C4_model_not_configured badModelReq downWorld (.ok []) "gpt4"
    rfl rfl rfl rfl

/-! ## C5 — timeout and transport-failure statuses -/

/-- C5 counterexample: in the `/ollama/chat` handler a timeout of the
upstream call is caught by the generic RequestException handler and maps
to HTTP 500, not 504. -/
theorem C5_timeout_counterexample :
    (Proxy.chat_with_model smollm2Req (.timeout "read timed out")).1.status =
      500 ∧ (500 : Nat) ≠ 504 :=
  ⟨rfl, by decide⟩

/-- C5 (amended): the `/ask` handler maps an upstream timeout to 504 and
any other transport/HTTP failure to 500; the `/ollama/chat` handler
catches only RequestException, so both a timeout and any other transport
failure map to 500 there. -/
theorem C5_failure_statuses (req : ChatReq) (w : AppCode.AskWorld)
    (m om tmsg emsg : String)
    (hp : pyFalsy req.prompt = false)
    (hm : req.model = some m)
    (hA : sLookup AppCode.AVAILABLE_MODELS m = some om)
    (hr : w.reachable (AppCode.get_ollama_url m) = true)
    (hP : Proxy.AVAILABLE_MODELS.contains m = true) :
    (AppCode.chat_with_model req
        { w with upstream := .timeout tmsg }).1.status = 504 ∧
    (AppCode.chat_with_model req
        { w with upstream := .requestError emsg }).1.status = 500 ∧
    (Proxy.chat_with_model req (.timeout tmsg)).1.status = 500 ∧
    (Proxy.chat_with_model req (.requestError emsg)).1.status = 500 := by
  have hP2 : m ∈ Proxy.AVAILABLE_MODELS := by simpa using hP
  refine ⟨?_, ?_, ?_, ?_⟩ <;>
    first
      | (unfold AppCode.chat_with_model
         rw [hm]
         simp only [Option.getD_some]
         simp [hp, hA, hr])
      | (unfold Proxy.chat_with_model
         rw [hm]
         simp [hP2, hp])

/-- C5 witness: the amended statement at the smollm2 request against a
reachable backend. -/
theorem C5_failure_statuses_witness :
    (AppCode.chat_with_model smollm2Req
        { okWorld with upstream := .timeout "t" }).1.status = 504 ∧
    (AppCode.chat_with_model smollm2Req
        { okWorld with upstream := .requestError "e" }).1.status = 500 ∧
    (Proxy.chat_with_model smollm2Req (.timeout "t")).1.status = 500 ∧
    (Proxy.chat_with_model smollm2Req (.requestError "e")).1.status = 500 :=
  C5_failure_statuses smollm2Req okWorld "smollm2"
    "smollm2:135m-instruct-q8_0" "t" "e" rfl rfl rfl rfl rfl

/-! ## C6 — shape of the successful response -/

/-- A request naming smollm2 with the prompt "hello". -/
def helloReq : ChatReq :=
  { token := none, model := some "smollm2", prompt := some "hello" }

/-- C6 counterexample: a successful `/ollama/chat` request returns 200
with a body holding only `response`: it has no `model`, `ollama_model` or
`processing_time` field, so not every successful chat/generate request
carries the four-field normalized object. -/
theorem C6_fields_counterexample :
    (Proxy.chat_with_model helloReq
        (.ok [.parsed (.obj [("response", .str "hi there")])])).1.status =
      200 ∧
    (Proxy.chat_with_model helloReq
        (.ok [.parsed (.obj [("response", .str "hi there")])])).1.body.getField
      "response" = some (.str "hi there") ∧
    (Proxy.chat_with_model helloReq
        (.ok [.parsed (.obj [("response", .str "hi there")])])).1.body.getField
      "model" = none ∧
    (Proxy.chat_with_model helloReq
        (.ok [.parsed (.obj [("response", .str "hi there")])])).1.body.getField
      "processing_time" = none :=
  ⟨rfl, rfl, rfl, rfl⟩

/-- C6 (amended): every successful `/ask` request returns exactly the
fields `response` (trimmed generated text), `model` (logical key),
`ollama_model` (real backend identifier) and `processing_time` (elapsed
seconds rounded to two decimals) — in particular the smollm2 scenario
yields `ollama_model` "smollm2:135m-instruct-q8_0" with 200; successful
`/ollama/chat` responses instead carry only the `response` field. -/
theorem C6_success_shape (req : ChatReq) (w : AppCode.AskWorld)
    (m om s : String) (result : Json)
    (hp : pyFalsy req.prompt = false)
    (hmk : req.model.getD "smollm2" = m)
    (hA : sLookup AppCode.AVAILABLE_MODELS m = some om)
    (hr : w.reachable (AppCode.get_ollama_url m) = true)
    (hu : w.upstream = .ok result)
    (hres : pyGet result "response" (.str "") = some (.str s))
    (hne : ¬ pyStrip s = "") :
    (AppCode.chat_with_model req w).1 =
      { status := 200,
        body := .obj
          [("response", .str (pyStrip s)),
           ("model", .str m),
           ("ollama_model", .str om),
           ("processing_time", .num (round2 w.elapsed))] } := by
  unfold AppCode.chat_with_model
  rw [hmk]
  simp [hp, hA, hr, hu, hres, hne]

/-- C6 witness: the end-to-end smollm2 scenario — prompt "hello" against
a reachable generate-variant backend answering `{"response":"hi there"}`
— yields the four-field body with `ollama_model`
"smollm2:135m-instruct-q8_0" and status 200. -/
theorem C6_success_shape_witness :
    (AppCode.chat_with_model helloReq okWorld).1 =
      { status := 200,
        body := .obj
          [("response", .str "hi there"),
           ("model", .str "smollm2"),
           ("ollama_model", .str "smollm2:135m-instruct-q8_0"),
           ("processing_time", .num (round2 0))] } :=
  C6_success_shape helloReq okWorld "smollm2" "smollm2:135m-instruct-q8_0"
    "hi there" (.obj [("response", .str "hi there")])
    rfl rfl rfl rfl rfl rfl (by decide)

/-! ## C7 — unreachable backend is rejected before forwarding -/

/-- C7: when the probe of the selected backend fails, the `/ask` handler
returns 503 with the attempted backend URL in the body, and the only
network call performed is the probe — no generation request is
forwarded. -/
theorem C7_backend_unavailable (req : ChatReq) (w : AppCode.AskWorld)
    (m om : String)
    (hp : pyFalsy req.prompt = false)
    (hmk : req.model.getD "smollm2" = m)
    (hA : sLookup AppCode.AVAILABLE_MODELS m = some om)
    (hr : w.reachable (AppCode.get_ollama_url m) = false) :
    AppCode.chat_with_model req w =
      ({ status := 503,
         body := .obj
           [("error",
             .str ("Ollama service for \x27" ++ m ++ "\x27 is not available")),
            ("ollama_url", .str (AppCode.get_ollama_url m))] },
       [.probe (AppCode.get_ollama_url m)]) := by
  unfold AppCode.chat_with_model
  rw [hmk]
  simp [hp, hA, hr]

/-- C7 witness: the smollm2 request against a world where no probe
succeeds yields the 503 response naming the smollm2 backend URL, with
only the probe in the call trace. -/
theorem C7_backend_unavailable_witness :
    AppCode.chat_with_model smollm2Req downWorld =
      ({ status := 503,
         body := .obj
           [("error",
             .str "Ollama service for \x27smollm2\x27 is not available"),
            ("ollama_url", .str "http://ollama-smollm2:11434")] },
       [.probe "http://ollama-smollm2:11434"]) :=
  C7_backend_unavailable smollm2Req downWorld "smollm2"
    "smollm2:135m-instruct-q8_0" rfl rfl rfl rfl

/-! ## C8 — empty generation -/

/-- C8: when the non-streaming backend reply has a generated-text value
whose trimmed form is empty (the absent-field case also lands here via
the `""` default), the `/ask` handler returns the EmptyGeneration error
with 500; when the trimmed text is non-empty the status is 200. -/
theorem C8_empty_generation (req : ChatReq) (w : AppCode.AskWorld)
    (m om s : String) (result : Json)
    (hp : pyFalsy req.prompt = false)
    (hmk : req.model.getD "smollm2" = m)
    (hA : sLookup AppCode.AVAILABLE_MODELS m = some om)
    (hr : w.reachable (AppCode.get_ollama_url m) = true)
    (hu : w.upstream = .ok result)
    (hres : pyGet result "response" (.str "") = some (.str s)) :
    (pyStrip s = "" →
      (AppCode.chat_with_model req w).1 =
        { status := 500,
          body := .obj [("error", .str "Empty response from model")] }) ∧
    (pyStrip s ≠ "" → (AppCode.chat_with_model req w).1.status = 200) := by
  constructor
  · intro he
    unfold AppCode.chat_with_model
    rw [hmk]
    simp [hp, hA, hr, hu, hres, he]
  · intro hne
    unfold AppCode.chat_with_model
    rw [hmk]
    simp [hp, hA, hr, hu, hres, hne]

/-- C8 witness: a backend reply whose `response` field is whitespace-only
yields the EmptyGeneration 500 response. -/
theorem C8_empty_generation_witness :
    (AppCode.chat_with_model smollm2Req
        { okWorld with upstream := .ok (.obj [("response", .str "   ")]) }).1 =
      { status := 500,
        body := .obj [("error", .str "Empty response from model")] } :=
  (C8_empty_generation smollm2Req
      { okWorld with upstream := .ok (.obj [("response", .str "   ")]) }
      "smollm2" "smollm2:135m-instruct-q8_0" "   "
      (.obj [("response", .str "   ")])
      rfl rfl rfl rfl rfl rfl).1 rfl

/-! ## C9 — the token field never influences the outcome -/

/-- C9: two chat/generate requests identical except in the value or
presence of `token` produce identical responses and identical network
traces, in both handlers: the token is read but never used. -/
theorem C9_token_irrelevant (req : ChatReq) (t : Option Json)
    (w : AppCode.AskWorld) (u : Proxy.ChatUpstream) :
    AppCode.chat_with_model { req with token := t } w =
      AppCode.chat_with_model req w ∧
    Proxy.chat_with_model { req with token := t } u =
      Proxy.chat_with_model req u := by
  obtain ⟨tok, mdl, pr⟩ := req
  exact ⟨rfl, rfl⟩

/-! ## C10 — a missing model field defaults to smollm2 -/

/-- C10: a `/ask` request omitting the `model` field behaves exactly as
if it had named "smollm2", and its response never carries the
`available_models` diagnostic of the model-not-available rejection — a
missing model is never rejected as unconfigured. -/
theorem C10_default_model (req : ChatReq) (w : AppCode.AskWorld)
    (hm : req.model = none) :
    AppCode.chat_with_model req w =
      AppCode.chat_with_model { req with model := some "smollm2" } w ∧
    (AppCode.chat_with_model req w).1.body.getField "available_models" =
      none := by
  obtain ⟨tok, mdl, pr⟩ := req
  replace hm : mdl = none := hm
  subst hm
  constructor
  · rfl
  · simp only [AppCode.chat_with_model, Option.getD_none, sLookup,
      AppCode.AVAILABLE_MODELS, AppCode.get_ollama_url,
      AppCode.OLLAMA_SERVICES]
    repeat' split
    all_goals first | rfl | simp_all

/-- C10 witness: the request with a prompt but no model field at all. -/
theorem C10_default_model_witness :
    AppCode.chat_with_model { token := none, model := none,
                              prompt := some "hi" } okWorld =
      AppCode.chat_with_model { token := none, model := some "smollm2",
                                prompt := some "hi" } okWorld ∧
    (AppCode.chat_with_model { token := none, model := none,
                               prompt := some "hi" } okWorld).1.body.getField
      "available_models" = none :=
  C10_default_model
    { token := none, model := none, prompt := some "hi" } okWorld rfl
